import Mathlib

/-!
# Shallow embedding of the node_auth_backend account security core

This file embeds the account security state machine of the repository
(`src/controllers/authController.js`, together with its email-service token
helpers and the schema implied by the queries) as executable Lean
definitions, and settles the frozen claims about it.

Conventions of the embedding:
* Times are naturals, milliseconds since the epoch (JavaScript `Date.now()`).
* The `users` table is a `List User`; SQL `SELECT ... WHERE` returning the
  first row is `List.find?`, and `UPDATE ... WHERE user_id = $n` maps every
  row with that id through the update function.
* Randomness (generated tokens, generated UUIDs) is passed in as explicit
  arguments, since `crypto.randomBytes` and `gen_random_uuid()` are
  nondeterministic inputs to the controller logic.
* bcrypt is modelled by a hash that embeds the plaintext, which is adequate
  for the functional claims (compare succeeds exactly on the hashed
  plaintext); secrecy of the hash is not a claim settled here.
* `process.env` configuration read by the controller is a `Config` record.
-/

/-- Model of `bcrypt.hash` (after `bcrypt.genSalt(10)`): a one-way hash is
modelled as a tagged copy of the plaintext, so that `bcryptCompare p (bcryptHash q)`
holds exactly when `p = q`, which is the behaviour of `bcrypt.compare`. -/
def bcryptHash (password : String) : String :=
  "bcrypt$10$" ++ password

/-- Model of `bcrypt.compare password hash`. -/
def bcryptCompare (password hash : String) : Bool :=
  hash == bcryptHash password

/-- Model of JavaScript `String.prototype.toLowerCase` as used on emails
(`email.toLowerCase()`). -/
def lowerCase (s : String) : String :=
  String.mk (s.data.map Char.toLower)

/-- A row of the `users` table, with the columns the controller reads and
writes (`user_id, user_name, user_email, user_password, is_verified,
login_attempts, lockout_until, verification_token, verification_token_expires,
reset_password_token, reset_password_expires, created_at, updated_at`).
UUIDs are modelled as naturals; nullable columns are `Option`s. -/
structure User where
  user_id : Nat
  user_name : String
  user_email : String
  user_password : String
  is_verified : Bool
  login_attempts : Option Nat
  lockout_until : Option Nat
  verification_token : Option String
  verification_token_expires : Option Nat
  reset_password_token : Option String
  reset_password_expires : Option Nat
  created_at : Nat
  updated_at : Nat
deriving Repr, DecidableEq

/-- The `users` table. -/
abbrev Store := List User

/-- Query `SELECT ... FROM users WHERE user_email = $1` with `[email.toLowerCase()]`
(helper `getUserByEmail` of the controller): first matching row. -/
def getUserByEmail (store : Store) (email : String) : Option User :=
  store.find? (fun u => u.user_email == lowerCase email)

/-- Statement `UPDATE users SET ... WHERE user_id = $n`: apply `f` to every row whose
`user_id` matches. -/
def updateUser (store : Store) (uid : Nat) (f : User → User) : Store :=
  store.map (fun u => if u.user_id == uid then f u else u)

/-- Environment configuration the controller reads from `process.env`. -/
structure Config where
  /-- `JWT_SECRET`. -/
  jwtSecret : String
  /-- `JWT_EXPIRE`, as a lifetime in seconds; `none` models the variable
  being unset, in which case the code falls back to the literal string
  `'24h'` (86400 seconds). -/
  jwtExpireSeconds : Option Nat
  /-- `REQUIRE_EMAIL_VERIFICATION === 'true'`. -/
  requireEmailVerification : Bool
deriving Repr, DecidableEq

/-- A signed JWT as produced by `jwt.sign(payload, secret, { expiresIn })`:
the payload fields placed there by the controller (`userId`, `email`),
the `iat`/`exp` claims added by signing (in seconds since the epoch),
and the secret the signature binds. -/
structure SignedJwt where
  userId : Nat
  email : String
  iat : Nat
  exp : Nat
  signedWith : String
deriving Repr, DecidableEq

/-- Signing: `jwt.sign` on the payload `{userId, email}`: stamps `iat` from the clock
(milliseconds truncated to seconds) and `exp = iat + expiresIn`. -/
def jwtSign (userId : Nat) (email : String) (secret : String)
    (nowMs : Nat) (expiresInSec : Nat) : SignedJwt :=
  { userId := userId
    email := email
    iat := nowMs / 1000
    exp := nowMs / 1000 + expiresInSec
    signedWith := secret }

/-- Helper `generateToken(user)` of the controller: payload is
`{ userId: user.user_id, email: user.user_email }`, signed with
`process.env.JWT_SECRET` and `expiresIn: process.env.JWT_EXPIRE || '24h'`. -/
def generateToken (cfg : Config) (nowMs : Nat) (user : User) : SignedJwt :=
  jwtSign user.user_id user.user_email cfg.jwtSecret nowMs
    (cfg.jwtExpireSeconds.getD (24 * 60 * 60))

/-- The `user` object of a register success response:
`{ id, name, email }` (controller `exports.register`, step 7). -/
structure RegisterUserSummary where
  id : Nat
  name : String
  email : String
deriving Repr, DecidableEq

/-- Result of `exports.register` after validation. The success payload is
exactly what the 201 response carries: `requiresVerification` and the user
summary — by construction it has no token field, no password field and no
verification-token field. -/
inductive RegisterResult where
  /-- 400 `User with this email already exists`. -/
  | duplicateEmail
  /-- 201 with `data: { requiresVerification, user }`. -/
  | ok (requiresVerification : Bool) (user : RegisterUserSummary)
deriving Repr, DecidableEq

/-- Operation `exports.register` (the controller variant with email verification),
after request validation.  `newId` models `gen_random_uuid()` and
`verificationToken` models `generateVerificationToken(32)`.

The `INSERT` sets name, lowercased email, bcrypt hash, the verification
token and its expiry `Date.now() + 24*60*60*1000`.  The columns the
`INSERT` omits take the schema defaults declared by `database.sql` and the
migration script (the `ALTER TABLE users ADD COLUMN` block):
`is_verified BOOLEAN DEFAULT FALSE`, `login_attempts INTEGER DEFAULT 0`,
`lockout_until` and the reset columns NULL, and `created_at`/`updated_at`
`DEFAULT CURRENT_TIMESTAMP`. -/
def register (store : Store) (now newId : Nat)
    (name email password verificationToken : String) : Store × RegisterResult :=
  if store.any (fun u => u.user_email == lowerCase email) then
    (store, RegisterResult.duplicateEmail)
  else
    let newUser : User :=
      { user_id := newId
        user_name := name
        user_email := lowerCase email
        user_password := bcryptHash password
        is_verified := false
        login_attempts := some 0
        lockout_until := none
        verification_token := some verificationToken
        verification_token_expires := some (now + 24 * 60 * 60 * 1000)
        reset_password_token := none
        reset_password_expires := none
        created_at := now
        updated_at := now }
    (store ++ [newUser],
     RegisterResult.ok true
       { id := newId, name := name, email := lowerCase email })

/-- Result of `exports.verifyEmail` after validation.  The constructors
carry the HTTP status and message of the corresponding response. -/
inductive VerifyResult where
  /-- 400 `Invalid verification token`: no row matched the token. -/
  | invalidToken
  /-- 200 `Email is already verified. You can log in now.` — returned
  without touching the store. -/
  | alreadyVerified
  /-- 400 `Verification token has expired. ...` -/
  | expiredToken
  /-- 200 `Email verified successfully! You can now log in.` -/
  | verified
deriving Repr, DecidableEq

/-- Operation `exports.verifyEmail`: look up the row whose `verification_token`
equals the supplied token (`WHERE verification_token = $1`, first row); if
none, fail; if the row is already verified, succeed without mutating; if
`verification_token_expires` is non-NULL and strictly before now, fail;
otherwise set `is_verified`, clear the token and its expiry, and bump
`updated_at` to `NOW()`. -/
def verifyEmail (store : Store) (now : Nat) (token : String) :
    Store × VerifyResult :=
  match store.find? (fun u => u.verification_token == some token) with
  | none => (store, VerifyResult.invalidToken)
  | some user =>
    if user.is_verified then
      (store, VerifyResult.alreadyVerified)
    else
      match user.verification_token_expires with
      | some expiry =>
        if expiry < now then
          (store, VerifyResult.expiredToken)
        else
          (updateUser store user.user_id (fun w =>
            { w with is_verified := true
                     verification_token := none
                     verification_token_expires := none
                     updated_at := now }),
           VerifyResult.verified)
      | none =>
        (updateUser store user.user_id (fun w =>
          { w with is_verified := true
                   verification_token := none
                   verification_token_expires := none
                   updated_at := now }),
         VerifyResult.verified)

/-- An always-success JSON response body together with its HTTP status, as
sent by the anti-enumeration endpoints. -/
structure ApiMessage where
  status : Nat
  success : Bool
  message : String
deriving Repr, DecidableEq

/-- Operation `exports.resendVerification` after validation: if a user with the
lowercased email exists and is not verified, rotate the verification token
(new token, fresh 24h expiry, bump `updated_at`); in every case answer the
same 200 body. `newToken` models `generateVerificationToken(32)`. -/
def resendVerification (store : Store) (now : Nat) (email newToken : String) :
    Store × ApiMessage :=
  let store2 :=
    match getUserByEmail store email with
    | some user =>
      if user.is_verified then store
      else
        updateUser store user.user_id (fun w =>
          { w with verification_token := some newToken
                   verification_token_expires := some (now + 24 * 60 * 60 * 1000)
                   updated_at := now })
    | none => store
  (store2,
   { status := 200
     success := true
     message := "If an account with that email exists and needs verification, a new email has been sent." })

/-- Operation `exports.forgotPassword` after validation: if a user with the lowercased
email exists, store a reset token with a 1h expiry and bump `updated_at`;
in every case answer the same 200 body. `newToken` models
`generateResetToken(32)`. -/
def forgotPassword (store : Store) (now : Nat) (email newToken : String) :
    Store × ApiMessage :=
  let store2 :=
    match getUserByEmail store email with
    | some user =>
      updateUser store user.user_id (fun w =>
        { w with reset_password_token := some newToken
                 reset_password_expires := some (now + 60 * 60 * 1000)
                 updated_at := now })
    | none => store
  (store2,
   { status := 200
     success := true
     message := "If an account with that email exists, a password reset link has been sent." })

/-- Result of `exports.resetPassword` after validation. -/
inductive ResetResult where
  /-- 400 `Invalid or expired reset token`: no row matched the token. -/
  | invalidToken
  /-- 400 `Reset token has expired. ...` -/
  | expiredToken
  /-- 200 `Password has been reset successfully. ...` -/
  | ok
deriving Repr, DecidableEq

/-- Operation `exports.resetPassword`: look up the row whose `reset_password_token`
equals the supplied token; if none, fail; if `reset_password_expires` is
non-NULL and strictly before now, fail; otherwise replace the password hash
with the hash of the new password, clear the reset token and expiry, reset
`login_attempts` to 0, clear `lockout_until`, and bump `updated_at`. -/
def resetPassword (store : Store) (now : Nat) (token newPassword : String) :
    Store × ResetResult :=
  match store.find? (fun u => u.reset_password_token == some token) with
  | none => (store, ResetResult.invalidToken)
  | some user =>
    match user.reset_password_expires with
    | some expiry =>
      if expiry < now then
        (store, ResetResult.expiredToken)
      else
        (updateUser store user.user_id (fun w =>
          { w with user_password := bcryptHash newPassword
                   reset_password_token := none
                   reset_password_expires := none
                   login_attempts := some 0
                   lockout_until := none
                   updated_at := now }),
         ResetResult.ok)
    | none =>
      (updateUser store user.user_id (fun w =>
        { w with user_password := bcryptHash newPassword
                 reset_password_token := none
                 reset_password_expires := none
                 login_attempts := some 0
                 lockout_until := none
                 updated_at := now }),
       ResetResult.ok)

/-- A typed value bound to a query placeholder, as node-postgres transmits
it to PostgreSQL: the server rejects a binding whose type cannot be read as
the column's type. -/
inductive SqlValue where
  | int (n : Nat)
  | uuid (id : Nat)
  | timestamp (t : Nat)
deriving Repr, DecidableEq

/-- Errors PostgreSQL raises while binding the failed-login `UPDATE`:
a placeholder with no parameter supplied, or a parameter whose type does
not fit the column it is bound to. -/
inductive DbError where
  | missingParameter
  | typeMismatch
deriving Repr, DecidableEq

/-- Execution of the statement the failed-login branch builds:
`UPDATE users SET login_attempts = $1{lockoutUpdate} WHERE user_id = $2`
where `lockoutUpdate` is `', lockout_until = $3'` exactly when the new
attempt count reached 5.  With the lockout fragment the statement has three
placeholders, otherwise two; the parameter list must supply each
placeholder, `$1` must be an integer (`login_attempts`), `$2` a uuid
(`user_id`), and `$3` a timestamp (`lockout_until`). -/
def runFailedLoginUpdate (store : Store) (withLockout : Bool)
    (params : List SqlValue) : Except DbError Store :=
  if withLockout then
    match params with
    | [p1, p2, p3] =>
      match p1, p2, p3 with
      | SqlValue.int n, SqlValue.uuid uid, SqlValue.timestamp t =>
        Except.ok (updateUser store uid (fun w =>
          { w with login_attempts := some n, lockout_until := some t }))
      | _, _, _ => Except.error DbError.typeMismatch
    | _ => Except.error DbError.missingParameter
  else
    match params with
    | [p1, p2] =>
      match p1, p2 with
      | SqlValue.int n, SqlValue.uuid uid =>
        Except.ok (updateUser store uid (fun w =>
          { w with login_attempts := some n }))
      | _, _ => Except.error DbError.missingParameter
    | _ => Except.error DbError.missingParameter

/-- The password-mismatch branch of `exports.login`, verbatim from the
source: `newAttempts = (user.login_attempts || 0) + 1`; when
`newAttempts >= 5` the statement gains `', lockout_until = $3'`; the
parameter list is `[5, lockoutUntil, user.user_id]` when `newAttempts > 5`
and `[newAttempts, user.user_id]` otherwise, with
`lockoutUntil = Date.now() + 30*60*1000`.  A rejected statement is caught
by the surrounding try/catch and surfaces as a 500 error, leaving the
store untouched. -/
def handleFailedAttempt (store : Store) (now : Nat) (user : User) :
    Store × Bool :=
  let newAttempts := user.login_attempts.getD 0 + 1
  let withLockout := decide (5 ≤ newAttempts)
  let lockoutUntil := now + 30 * 60 * 1000
  let params : List SqlValue :=
    if 5 < newAttempts then
      [SqlValue.int 5, SqlValue.timestamp lockoutUntil, SqlValue.uuid user.user_id]
    else
      [SqlValue.int newAttempts, SqlValue.uuid user.user_id]
  match runFailedLoginUpdate store withLockout params with
  | Except.ok store2 => (store2, true)
  | Except.error _ => (store, false)

/-- Check `user.lockout_until && new Date(user.lockout_until) > new Date()`:
the account is currently locked out. -/
def lockedOut (user : User) (now : Nat) : Bool :=
  match user.lockout_until with
  | some lockout => decide (now < lockout)
  | none => false

/-- Computation `Math.ceil((new Date(user.lockout_until) - new Date()) / 60000)`:
remaining lockout minutes, rounded up. -/
def remainingMinutes (user : User) (now : Nat) : Nat :=
  match user.lockout_until with
  | some lockout => (lockout - now + 59999) / 60000
  | none => 0

/-- The `user` object of a login success response:
`{ id, name, email, isVerified }` (controller `exports.login`, step 8). -/
structure LoginUserSummary where
  id : Nat
  name : String
  email : String
  isVerified : Bool
deriving Repr, DecidableEq

/-- Result of `exports.login` after validation. -/
inductive LoginResult where
  /-- 401 `Invalid credentials` (unknown email or wrong password). -/
  | invalidCredentials
  /-- 423 `Account is temporarily locked. ...` with remaining minutes. -/
  | accountLocked (remainingMinutes : Nat)
  /-- 403 `Please verify your email before logging in. ...` -/
  | emailNotVerified
  /-- 500 via the catch-all handler: a store statement was rejected. -/
  | dbError
  /-- 200 with `data: { token, user }`. -/
  | ok (token : SignedJwt) (user : LoginUserSummary)
deriving Repr, DecidableEq

/-- Operation `exports.login` after validation: look up by lowercased email
(`InvalidCredentials` if absent); refuse while `lockout_until` lies in the
future, reporting the remaining minutes rounded up; compare the password,
branching to `handleFailedAttempt` on mismatch; optionally require a
verified email; on success persist `login_attempts = 0, lockout_until =
NULL` and answer with a signed token and the user summary. -/
def login (cfg : Config) (store : Store) (now : Nat)
    (email password : String) : Store × LoginResult :=
  match getUserByEmail store email with
  | none => (store, LoginResult.invalidCredentials)
  | some user =>
    if lockedOut user now then
      (store, LoginResult.accountLocked (remainingMinutes user now))
    else if bcryptCompare password user.user_password then
      if cfg.requireEmailVerification && !user.is_verified then
        (store, LoginResult.emailNotVerified)
      else
        (updateUser store user.user_id (fun w =>
          { w with login_attempts := some 0, lockout_until := none }),
         LoginResult.ok (generateToken cfg now user)
           { id := user.user_id
             name := user.user_name
             email := user.user_email
             isVerified := user.is_verified })
    else
      match handleFailedAttempt store now user with
      | (store2, true) => (store2, LoginResult.invalidCredentials)
      | (store2, false) => (store2, LoginResult.dbError)

/-! ## Concrete fixtures used to witness the theorems -/

/-- A configuration with `JWT_EXPIRE` unset and email verification not
required (the defaults of the deployment described by the sources). -/
def cfgW : Config :=
  { jwtSecret := "secret", jwtExpireSeconds := none,
    requireEmailVerification := false }

/-- A baseline stored account: verified fieldwise as needed per fixture. -/
def baseUser : User :=
  { user_id := 1
    user_name := "Jane"
    user_email := "jane@x.com"
    user_password := bcryptHash "pw"
    is_verified := false
    login_attempts := none
    lockout_until := none
    verification_token := none
    verification_token_expires := none
    reset_password_token := none
    reset_password_expires := none
    created_at := 0
    updated_at := 0 }

/-- An account that has already accumulated 4 consecutive failed logins. -/
def fourFailuresUser : User :=
  { baseUser with login_attempts := some 4 }

/-- An unverified account holding a pending verification token. -/
def pendingVerifyUser : User :=
  { baseUser with
      verification_token := some "T"
      verification_token_expires := some 100 }

/-- An account holding a pending password-reset token. -/
def pendingResetUser : User :=
  { baseUser with
      reset_password_token := some "R"
      reset_password_expires := some 100
      login_attempts := some 3
      lockout_until := some 40 }

/-- An account whose 30-minute lockout window has already lapsed while its
stored failed-attempt counter still reads 4. -/
def lapsedLockoutUser : User :=
  { baseUser with login_attempts := some 4, lockout_until := some 1000 }

/-- A variant of `baseUser` agreeing on id and email but differing in the
password hash and in both stored secrets. -/
def otherSecretsUser : User :=
  { baseUser with
      user_password := bcryptHash "different"
      verification_token := some "V"
      reset_password_token := some "R" }

/-! ## Helper lemmas -/

/-- Membership in an updated table: every row of `updateUser store uid f`
comes from a row of `store`, transformed iff its id matches. -/
theorem mem_updateUser {store : Store} {uid : Nat} {f : User → User} {v : User}
    (hv : v ∈ updateUser store uid f) :
    ∃ w ∈ store, v = if w.user_id == uid then f w else w := by
  simp only [updateUser, List.mem_map] at hv
  obtain ⟨w, hw, hvw⟩ := hv
  exact ⟨w, hw, hvw.symm⟩

/-- The modelled bcrypt hash is injective. -/
theorem bcryptHash_injective {p q : String} (h : bcryptHash p = bcryptHash q) :
    p = q := by
  unfold bcryptHash at h
  have hd := congrArg String.data h
  simp only [String.data_append] at hd
  exact String.ext (List.append_cancel_left hd)

/-- Comparing a password against the hash of another succeeds exactly when
the plaintexts agree. -/
theorem bcryptCompare_hash (p q : String) :
    bcryptCompare p (bcryptHash q) = (decide (p = q)) := by
  unfold bcryptCompare
  by_cases h : p = q
  · subst h; simp
  · have hne : bcryptHash q ≠ bcryptHash p := fun hc => h (bcryptHash_injective hc).symm
    simp [h, hne]

/-- An account with a lapsed (or absent) lockout is not locked out. -/
theorem lockedOut_eq_false {u : User} {now : Nat}
    (h : ∀ t, u.lockout_until = some t → t ≤ now) :
    lockedOut u now = false := by
  unfold lockedOut
  cases hl : u.lockout_until with
  | none => rfl
  | some t => simpa using Nat.not_lt.mpr (h t hl)

/-! ## Claims -/

/-- Claim C7: ForgotPassword and ResendVerification each return the same
success response (status 200, success flag, fixed body) for every input
email and every store state, so two runs differing only in whether the
account exists produce identical response bodies. -/
theorem c7_anti_enumeration_uniform_responses
    (s1 s2 : Store) (n1 n2 : Nat) (e1 e2 t1 t2 : String) :
    (forgotPassword s1 n1 e1 t1).2 = (forgotPassword s2 n2 e2 t2).2 ∧
    (resendVerification s1 n1 e1 t1).2 = (resendVerification s2 n2 e2 t2).2 ∧
    (forgotPassword s1 n1 e1 t1).2.status = 200 ∧
    (forgotPassword s1 n1 e1 t1).2.success = true ∧
    (resendVerification s1 n1 e1 t1).2.status = 200 ∧
    (resendVerification s1 n1 e1 t1).2.success = true :=
  ⟨rfl, rfl, rfl, rfl, rfl, rfl⟩

/-- Claim C9: the bearer token issued for a user carries exactly the account
id and email in its payload plus the `iat`/`exp` stamps added by signing;
it depends on nothing else of the account (in particular not on the
password hash, verification token or reset token), and its lifetime
defaults to 24 hours when `JWT_EXPIRE` is unset. -/
theorem c9_token_payload (cfg : Config) (now : Nat) (u : User) :
    generateToken cfg now u =
      { userId := u.user_id
        email := u.user_email
        iat := now / 1000
        exp := now / 1000 + cfg.jwtExpireSeconds.getD (24 * 60 * 60)
        signedWith := cfg.jwtSecret } ∧
    (∀ u' : User, u'.user_id = u.user_id → u'.user_email = u.user_email →
      generateToken cfg now u' = generateToken cfg now u) ∧
    (cfg.jwtExpireSeconds = none →
      (generateToken cfg now u).exp = (generateToken cfg now u).iat + 24 * 60 * 60) := by
  refine ⟨rfl, ?_, ?_⟩
  · intro u' h1 h2
    simp [generateToken, jwtSign, h1, h2]
  · intro h
    simp [generateToken, jwtSign, h]

/-- Witness for C9: two concrete accounts sharing id and email but holding
different password hashes and stored secrets receive the same token, with
the 24-hour default lifetime. -/
theorem c9_token_payload_witness :
    generateToken cfgW 5000 otherSecretsUser = generateToken cfgW 5000 baseUser ∧
    (generateToken cfgW 5000 baseUser).exp
      = (generateToken cfgW 5000 baseUser).iat + 24 * 60 * 60 :=
  ⟨(c9_token_payload cfgW 5000 baseUser).2.1 otherSecretsUser rfl rfl,
   (c9_token_payload cfgW 5000 baseUser).2.2 rfl⟩

/-- Claim C3: registering a fresh (not previously registered, case-folded)
email stores an account that is unverified and carries a verification token
expiring 24 hours after creation, and the success response consists of the
`requiresVerification` flag and the account summary only — it contains no
bearer token and no password or verification-token material, witnessed by
the response being independent of the password and the generated token. -/
theorem c3_register_fresh_email (store : Store) (now newId : Nat)
    (name email password tok : String)
    (hfresh : store.any (fun u => u.user_email == lowerCase email) = false) :
    (register store now newId name email password tok).2 =
      RegisterResult.ok true { id := newId, name := name, email := lowerCase email } ∧
    (∃ u : User,
      (register store now newId name email password tok).1 = store ++ [u] ∧
      u.is_verified = false ∧
      u.verification_token = some tok ∧
      u.verification_token_expires = some (now + 24 * 60 * 60 * 1000) ∧
      u.created_at = now) ∧
    (∀ password' tok' : String,
      (register store now newId name email password' tok').2 =
      (register store now newId name email password tok).2) := by
  refine ⟨?_, ?_, ?_⟩
  · simp [register, hfresh]
  · exact ⟨{ user_id := newId, user_name := name, user_email := lowerCase email,
             user_password := bcryptHash password, is_verified := false,
             login_attempts := some 0, lockout_until := none,
             verification_token := some tok,
             verification_token_expires := some (now + 24 * 60 * 60 * 1000),
             reset_password_token := none, reset_password_expires := none,
             created_at := now, updated_at := now },
           by simp [register, hfresh], rfl, rfl, rfl, rfl⟩
  · intro password' tok'
    simp [register, hfresh]

/-- Witness for C3: registering a concrete fresh email. -/
theorem c3_register_fresh_email_witness :
    (register [baseUser] 10 2 "Bob" "Bob@Y.com" "pw2" "V2").2 =
      RegisterResult.ok true { id := 2, name := "Bob", email := lowerCase "Bob@Y.com" } :=
  (c3_register_fresh_email [baseUser] 10 2 "Bob" "Bob@Y.com" "pw2" "V2" (by decide)).1

/-- Claim C4: a VerifyEmail call whose matching account is unverified and
whose token expiry lies strictly in the past fails with `ExpiredToken` and
leaves the store — hence the account, its verification token and its
expiry — completely unchanged. -/
theorem c4_verify_expired_token (store : Store) (now : Nat) (token : String)
    (u : User) (expiry : Nat)
    (hfind : store.find? (fun v => v.verification_token == some token) = some u)
    (hunverified : u.is_verified = false)
    (hexpiry : u.verification_token_expires = some expiry)
    (hpast : expiry < now) :
    verifyEmail store now token = (store, VerifyResult.expiredToken) := by
  simp [verifyEmail, hfind, hunverified, hexpiry, hpast]

/-- Witness for C4: a concrete expired verification token. -/
theorem c4_verify_expired_token_witness :
    verifyEmail [pendingVerifyUser] 200 "T"
      = ([pendingVerifyUser], VerifyResult.expiredToken) :=
  c4_verify_expired_token [pendingVerifyUser] 200 "T" pendingVerifyUser 100
    (by decide) (by decide) (by decide) (by decide)

/-- Claim C8: after a successful registration, registering again with any
email equal to the first up to letter case fails with `DuplicateEmail` and
inserts nothing — the store is exactly the store left by the first
registration. -/
theorem c8_duplicate_email (store store' : Store) (now1 now2 id1 id2 : Nat)
    (n1 n2 e1 e2 p1 p2 t1 t2 : String) (rv : Bool) (us : RegisterUserSummary)
    (hcase : lowerCase e1 = lowerCase e2)
    (hfirst : register store now1 id1 n1 e1 p1 t1 = (store', RegisterResult.ok rv us)) :
    register store' now2 id2 n2 e2 p2 t2 = (store', RegisterResult.duplicateEmail) := by
  unfold register at hfirst
  split at hfirst
  · exact absurd (congrArg Prod.snd hfirst) (by simp)
  · have hstore' := congrArg Prod.fst hfirst
    simp only at hstore'
    subst hstore'
    have hany : (List.any (store ++
        [{ user_id := id1, user_name := n1, user_email := lowerCase e1,
           user_password := bcryptHash p1, is_verified := false,
           login_attempts := some 0, lockout_until := none,
           verification_token := some t1,
           verification_token_expires := some (now1 + 24 * 60 * 60 * 1000),
           reset_password_token := none, reset_password_expires := none,
           created_at := now1, updated_at := now1 }])
        fun u => u.user_email == lowerCase e2) = true := by
      simp [List.any_append, hcase]
    unfold register
    rw [if_pos hany]

/-- Witness for C8: a concrete duplicate registration differing in case. -/
theorem c8_duplicate_email_witness :
    register (register [] 10 1 "Jane" "Jane@X.com" "pw" "T").1 20 2 "Bob"
        "jane@x.COM" "pw2" "T2"
      = ((register [] 10 1 "Jane" "Jane@X.com" "pw" "T").1,
         RegisterResult.duplicateEmail) :=
  c8_duplicate_email [] (register [] 10 1 "Jane" "Jane@X.com" "pw" "T").1
    10 20 1 2 "Jane" "Bob" "Jane@X.com" "jane@x.COM" "pw" "pw2" "T" "T2"
    true { id := 1, name := "Jane", email := "jane@x.com" }
    (by decide) (by decide)

/-- Claim C5: ResetPassword with a valid, unexpired token replaces the
stored hash — afterwards the new password verifies and the (different) old
one no longer does — and clears the reset token and its expiry, resets the
failed-attempt counter to 0 and clears any lockout, for every row of the
account being reset. -/
theorem c5_reset_password_rehabilitates (store : Store) (now : Nat)
    (token oldPwd newPwd : String) (u : User)
    (hfind : store.find? (fun v => v.reset_password_token == some token) = some u)
    (hexpiry : ∀ e, u.reset_password_expires = some e → ¬ e < now)
    (hold : u.user_password = bcryptHash oldPwd)
    (hne : oldPwd ≠ newPwd) :
    (resetPassword store now token newPwd).2 = ResetResult.ok ∧
    ∀ v ∈ (resetPassword store now token newPwd).1, v.user_id = u.user_id →
      bcryptCompare newPwd v.user_password = true ∧
      bcryptCompare oldPwd v.user_password = false ∧
      v.reset_password_token = none ∧
      v.reset_password_expires = none ∧
      v.login_attempts = some 0 ∧
      v.lockout_until = none := by
  have hres : resetPassword store now token newPwd =
      (updateUser store u.user_id (fun w =>
        { w with user_password := bcryptHash newPwd
                 reset_password_token := none
                 reset_password_expires := none
                 login_attempts := some 0
                 lockout_until := none
                 updated_at := now }), ResetResult.ok) := by
    unfold resetPassword
    rw [hfind]
    cases he : u.reset_password_expires with
    | none => simp [he]
    | some e =>
      have hnl : ¬ e < now := hexpiry e he
      simp [he, hnl]
  refine ⟨by rw [hres], ?_⟩
  intro v hv hid
  rw [hres] at hv
  obtain ⟨w, hw, hvw⟩ := mem_updateUser hv
  by_cases hmatch : (w.user_id == u.user_id) = true
  · rw [hvw, if_pos hmatch]
    refine ⟨?_, ?_, rfl, rfl, rfl, rfl⟩
    · simp [bcryptCompare_hash]
    · rw [bcryptCompare_hash]
      exact decide_eq_false hne
  · exfalso
    rw [hvw, if_neg hmatch] at hid
    exact hmatch (by simpa using hid)

/-- Witness for C5: resetting a concrete locked account with a valid
unexpired token succeeds. -/
theorem c5_reset_password_rehabilitates_witness :
    (resetPassword [pendingResetUser] 50 "R" "new").2 = ResetResult.ok :=
  (c5_reset_password_rehabilitates [pendingResetUser] 50 "R" "pw" "new"
    pendingResetUser (by decide)
    (fun e he => by injection he with h; omega)
    (by decide) (by decide)).1

/-- Claim C6: a login with the correct password on an account that is not
currently locked out, with the verification policy satisfied, answers with
the signed bearer token and the account summary, and persists
`login_attempts = 0` with `lockout_until` cleared on every row of that
account. -/
theorem c6_login_success_resets_attempts (cfg : Config) (store : Store)
    (now : Nat) (email password : String) (u : User)
    (hfind : getUserByEmail store email = some u)
    (hlock : ∀ t, u.lockout_until = some t → t ≤ now)
    (hpwd : bcryptCompare password u.user_password = true)
    (hver : cfg.requireEmailVerification = true → u.is_verified = true) :
    (login cfg store now email password).2 =
      LoginResult.ok (generateToken cfg now u)
        { id := u.user_id, name := u.user_name, email := u.user_email,
          isVerified := u.is_verified } ∧
    ∀ v ∈ (login cfg store now email password).1, v.user_id = u.user_id →
      v.login_attempts = some 0 ∧ v.lockout_until = none := by
  have hguard : (cfg.requireEmailVerification && !u.is_verified) = false := by
    cases hc : cfg.requireEmailVerification
    · rfl
    · simp [hver hc]
  have hres : login cfg store now email password =
      (updateUser store u.user_id (fun w =>
        { w with login_attempts := some 0, lockout_until := none }),
       LoginResult.ok (generateToken cfg now u)
         { id := u.user_id, name := u.user_name, email := u.user_email,
           isVerified := u.is_verified }) := by
    unfold login
    rw [hfind]
    simp [lockedOut_eq_false hlock, hpwd, hguard]
  refine ⟨by rw [hres], ?_⟩
  intro v hv hid
  rw [hres] at hv
  obtain ⟨w, hw, hvw⟩ := mem_updateUser hv
  by_cases hmatch : (w.user_id == u.user_id) = true
  · rw [hvw, if_pos hmatch]
    exact ⟨rfl, rfl⟩
  · exfalso
    rw [hvw, if_neg hmatch] at hid
    exact hmatch (by simpa using hid)

/-- Witness for C6: a concrete successful login on an account with three
prior failures and a lapsed lockout. -/
theorem c6_login_success_resets_attempts_witness :
    (login cfgW [pendingResetUser] 50 "JANE@X.com" "pw").2 =
      LoginResult.ok (generateToken cfgW 50 pendingResetUser)
        { id := 1, name := "Jane", email := "jane@x.com", isVerified := false } :=
  (c6_login_success_resets_attempts cfgW [pendingResetUser] 50 "JANE@X.com"
    "pw" pendingResetUser (by decide)
    (fun t ht => by injection ht with h; omega)
    (by decide) (fun h => by simp [cfgW] at h)).1

/-- Counterexample to claim C2: on a concrete account, VerifyEmail succeeds
with a valid token, but a second call with that same token returns the 400
`Invalid verification token` error, not success — the first call cleared
the stored token, so the claimed idempotent success does not happen. -/
theorem c2_counterexample_second_call_fails :
    (verifyEmail [pendingVerifyUser] 50 "T").2 = VerifyResult.verified ∧
    (verifyEmail (verifyEmail [pendingVerifyUser] 50 "T").1 60 "T").2
      = VerifyResult.invalidToken := by
  constructor <;> rfl

/-- Claim C2 amended: after a first successful VerifyEmail, the matching
account no longer holds the token (it is cleared by the success path), so
a second call with the same token fails with `InvalidToken` — and that
second call does not mutate the store at all.  (Success on a repeated call
would require an account that is already verified while still storing the
matching token, a state the success path never leaves behind.) -/
theorem c2_verify_email_second_call (store store1 : Store) (now1 now2 : Nat)
    (token : String) (u : User)
    (hfind : store.find? (fun v => v.verification_token == some token) = some u)
    (huniq : ∀ v ∈ store, v.verification_token = some token → v.user_id = u.user_id)
    (hfirst : verifyEmail store now1 token = (store1, VerifyResult.verified)) :
    verifyEmail store1 now2 token = (store1, VerifyResult.invalidToken) := by
  have hstore1 : store1 = updateUser store u.user_id (fun w =>
      { w with is_verified := true
               verification_token := none
               verification_token_expires := none
               updated_at := now1 }) := by
    simp only [verifyEmail, hfind] at hfirst
    by_cases hv : u.is_verified = true
    · rw [if_pos hv] at hfirst
      exact absurd (congrArg Prod.snd hfirst) (by simp)
    · rw [if_neg hv] at hfirst
      cases he : u.verification_token_expires with
      | none =>
        rw [he] at hfirst
        exact (congrArg Prod.fst hfirst).symm
      | some e =>
        simp only [he] at hfirst
        by_cases hlt : e < now1
        · rw [if_pos hlt] at hfirst
          exact absurd (congrArg Prod.snd hfirst) (by simp)
        · rw [if_neg hlt] at hfirst
          exact (congrArg Prod.fst hfirst).symm
  have hnone : store1.find? (fun v => v.verification_token == some token) = none := by
    rw [hstore1]
    rw [List.find?_eq_none]
    intro v hv
    obtain ⟨w, hw, hvw⟩ := mem_updateUser hv
    by_cases hmatch : (w.user_id == u.user_id) = true
    · rw [hvw, if_pos hmatch]
      simp
    · rw [hvw, if_neg hmatch]
      intro hcontra
      exact hmatch (by simpa using huniq w hw (by simpa using hcontra))
  unfold verifyEmail
  rw [hnone]

/-- Witness for the amended C2: the concrete second call fails with
`InvalidToken` and leaves the store of the first call unchanged. -/
theorem c2_verify_email_second_call_witness :
    verifyEmail (verifyEmail [pendingVerifyUser] 50 "T").1 60 "T"
      = ((verifyEmail [pendingVerifyUser] 50 "T").1, VerifyResult.invalidToken) :=
  c2_verify_email_second_call [pendingVerifyUser]
    (verifyEmail [pendingVerifyUser] 50 "T").1 50 60 "T" pendingVerifyUser
    (by decide)
    (fun v hv _ => by
      have : v = pendingVerifyUser := by simpa using hv
      rw [this])
    (by decide)

/-- Claim C1, evaluated at the failing input: an account with 4 stored
failed attempts receives its 5th consecutive wrong password.  The code
builds `UPDATE users SET login_attempts = $1, lockout_until = $3 WHERE
user_id = $2` but supplies only two parameters (the `newAttempts > 5`
guard excludes the count-equals-5 case), so the statement is rejected: the
call answers a 500 error instead of `InvalidCredentials`, and neither the
incremented counter nor `lockoutUntil = now + 30min` is persisted — the
store is returned unchanged. -/
theorem c1_fifth_failed_login_errors :
    login cfgW [fourFailuresUser] 50 "jane@x.com" "wrong"
      = ([fourFailuresUser], LoginResult.dbError) := by
  rfl

/-- Counterexample to claim C10: a concrete account whose lockout window
(`lockout_until = 1000`) has lapsed by `now = 2000000` while its stored
counter reads 4.  The claimed behaviour is that one further failed login
sets a fresh 30-minute lockout; instead the rejected update statement makes
the call fail with a 500 error and the store — including the stale
`lockout_until` — is unchanged. -/
theorem c10_counterexample_no_fresh_lockout :
    login cfgW [lapsedLockoutUser] 2000000 "jane@x.com" "wrong"
      = ([lapsedLockoutUser], LoginResult.dbError) := by
  rfl

/-- Claim C10 amended: the lockout check only blocks while `lockoutUntil`
is in the future and nothing resets `loginAttempts` when a lockout lapses,
so a further failed login with at least 4 stored attempts takes the
threshold branch — but instead of persisting a fresh 30-minute lockout,
the built update statement is rejected (two parameters for three
placeholders when the new count is exactly 5; wrongly ordered, wrongly
typed bindings when it exceeds 5), so the login fails with a 500 error and
persists nothing. -/
theorem c10_lapsed_lockout_failed_login (cfg : Config) (store : Store)
    (now : Nat) (email password : String) (u : User)
    (hfind : getUserByEmail store email = some u)
    (hatt : 4 ≤ u.login_attempts.getD 0)
    (hlock : ∀ t, u.lockout_until = some t → t ≤ now)
    (hpwd : bcryptCompare password u.user_password = false) :
    login cfg store now email password = (store, LoginResult.dbError) := by
  unfold login
  rw [hfind]
  simp only [lockedOut_eq_false hlock, hpwd, Bool.false_eq_true, if_false]
  have h5 : (decide (5 ≤ u.login_attempts.getD 0 + 1)) = true := by
    simp only [decide_eq_true_eq]
    omega
  by_cases h6 : 5 < u.login_attempts.getD 0 + 1
  · simp [handleFailedAttempt, runFailedLoginUpdate, h5, h6, hatt]
  · simp [handleFailedAttempt, runFailedLoginUpdate, h5, h6, hatt]

/-- Witness for the amended C10: a concrete lapsed-lockout account with 4
stored attempts; one further failed login yields the 500 error and an
unchanged store. -/
theorem c10_lapsed_lockout_failed_login_witness :
    login cfgW [lapsedLockoutUser] 2500000 "JANE@x.com" "nope"
      = ([lapsedLockoutUser], LoginResult.dbError) :=
  c10_lapsed_lockout_failed_login cfgW [lapsedLockoutUser] 2500000
    "JANE@x.com" "nope" lapsedLockoutUser (by decide) (by decide)
    (fun t ht => by injection ht with h; omega) (by decide)
